import Mathlib

/-!
# Verification of the Zettlr IPC command router (source/main/zettlr-ipc.js)

A shallow embedding of the `ZettlrIPC` class: `dispatch` (the entry point
called for every inbound transport message) and `handleEvent` (the command
switch).  JavaScript values are modelled by the inductive type `Value`;
the observable behaviour of a call (log output, calls issued on the
injected application controller `this._app`, configuration reads/writes,
outbound `send` messages) is recorded as a trace of `Event`s, and a thrown
`TypeError` (property access on `null`/`undefined`) is recorded by the
`threw` flag together with the partial trace produced before the throw.
-/

namespace ZettlrIPC

/-- JavaScript values, as far as the router manipulates them: `undefined`,
`null`, booleans, numbers (the router only ever moves them around, so `Int`
suffices as the carrier), strings, and plain objects as ordered field
lists. -/
inductive Value where
  | undefined : Value
  | null : Value
  | bool : Bool → Value
  | num : Int → Value
  | str : String → Value
  | obj : List (String × Value) → Value

mutual

def decEqValue (a b : Value) : Decidable (a = b) := by
  cases a <;> cases b <;>
    first
      | exact isTrue rfl
      | exact isFalse Value.noConfusion
      | skip
  case bool.bool x y =>
    exact decidable_of_iff (x = y) ⟨congrArg Value.bool, Value.bool.inj⟩
  case num.num x y =>
    exact decidable_of_iff (x = y) ⟨congrArg Value.num, Value.num.inj⟩
  case str.str x y =>
    exact decidable_of_iff (x = y) ⟨congrArg Value.str, Value.str.inj⟩
  case obj.obj xs ys =>
    exact match decEqFields xs ys with
      | isTrue hh => isTrue (congrArg Value.obj hh)
      | isFalse hh => isFalse fun c => hh (Value.obj.inj c)

def decEqFields (l₁ l₂ : List (String × Value)) : Decidable (l₁ = l₂) :=
  match l₁, l₂ with
  | [], [] => isTrue rfl
  | [], _ :: _ => isFalse List.noConfusion
  | _ :: _, [] => isFalse List.noConfusion
  | (k₁, w₁) :: t₁, (k₂, w₂) :: t₂ =>
    match decEq k₁ k₂, decEqValue w₁ w₂, decEqFields t₁ t₂ with
    | isTrue e₁, isTrue e₂, isTrue e₃ => isTrue (by rw [e₁, e₂, e₃])
    | isFalse n, _, _ => isFalse fun c => by cases c; exact n rfl
    | _, isFalse n, _ => isFalse fun c => by cases c; exact n rfl
    | _, _, isFalse n => isFalse fun c => by cases c; exact n rfl

end

instance : DecidableEq Value :=
  decEqValue

/-- JavaScript truthiness, used by the `!` operator in the two toggle
handlers: `undefined`, `null`, `false`, `0` and the empty string are falsy,
every object is truthy. -/
def truthy : Value → Bool
  | .undefined => false
  | .null => false
  | .bool b => b
  | .num n => n != 0
  | .str s => s != ""
  | .obj _ => true

/-- JavaScript `ToNumber` on primitive values, `none` standing for `NaN`
(numeric strings via `String.toInt?`, which covers the integral literals
the router could ever meet; a plain object coerces through the string
"[object Object]", i.e. to `NaN`). -/
def toNum : Value → Option Int
  | .undefined => none
  | .null => some 0
  | .bool b => some (if b then 1 else 0)
  | .num n => some n
  | .str s => if s.trim = "" then some 0 else s.trim.toInt?
  | .obj _ => none

/-- JavaScript abstract (loose) equality `==` restricted to primitive
operands: `null` and `undefined` are equal to each other and to nothing
else, same-type operands compare directly, and mixed-type operands
compare after `ToNumber` coercion (`NaN` equal to nothing). -/
def jsEqPrim : Value → Value → Bool
  | .undefined, .undefined => true
  | .undefined, .null => true
  | .null, .undefined => true
  | .null, .null => true
  | .undefined, _ => false
  | _, .undefined => false
  | .null, _ => false
  | _, .null => false
  | .bool a, .bool b => a == b
  | .num a, .num b => a == b
  | .str a, .str b => a == b
  | a, b =>
    match toNum a, toNum b with
    | some x, some y => x == y
    | _, _ => false

/-- JavaScript abstract (loose) equality `==` on router values.  A plain
object coerces to the primitive string "[object Object]" when compared
against a primitive; between two objects JavaScript compares references,
which this pure value model renders as structural equality (the router
only ever applies `==`/`!=` to primitives: config booleans and `null`
checks). -/
def jsEq (a b : Value) : Bool :=
  match a, b with
  | .obj x, .obj y => x == y
  | .obj _, .undefined => false
  | .obj _, .null => false
  | .undefined, .obj _ => false
  | .null, .obj _ => false
  | .obj _, b => jsEqPrim (.str "[object Object]") b
  | a, .obj _ => jsEqPrim a (.str "[object Object]")
  | a, b => jsEqPrim a b

/-- `v.hasOwnProperty(k)`: true for an object's own fields; a string owns
`length` (its canonical numeric index properties are not modelled — the
router only ever asks for `command`, `content` and `hash`); the remaining
primitives own nothing.  Calling it on `null`/`undefined` throws, which
the callers below model explicitly. -/
def hasOwn : Value → String → Bool
  | .obj fs, k => fs.any (fun p => p.1 = k)
  | .str _, k => k = "length"
  | _, _ => false

/-- `v[k]`: property read.  On an object it returns the field's value, or
`undefined` when absent; on the remaining primitives the properties the
router reads (`command`, `content`, `hash`, `terms`, `darkTheme`,
`snippets`) do not exist, so it returns `undefined`.  Reads on
`null`/`undefined` throw and are modelled at the call sites. -/
def getProp : Value → String → Value
  | .obj fs, k =>
    match fs.find? (fun p => p.1 = k) with
    | some p => p.2
    | none => .undefined
  | _, _ => .undefined

/-- `v[k] = w`: property write.  On an object it overwrites the field in
place or appends it; on a primitive the write is silently discarded
(non-strict mode).  Writes on `null`/`undefined` throw and are modelled at
the call sites. -/
def setProp : Value → String → Value → Value
  | .obj fs, k, v =>
    .obj (if fs.any (fun p => p.1 = k) then
            fs.map (fun p => if p.1 = k then (k, v) else p)
          else fs ++ [(k, v)])
  | x, _, _ => x

/-- One observable step of the router: a `console.error` with a
translation key and the offending argument, the `console.log` for an
unknown command, a method call on the injected controller `this._app`
(method name and evaluated arguments), a `set`/`update` on the
configuration service obtained from `getConfig()`, or an outbound
`send(command, content)` to the renderer. -/
inductive Event where
  | logError : String → Value → Event
  | logUnknown : Value → Event
  | appCall : String → List Value → Event
  | configSet : String → Value → Event
  | configUpdate : Value → Event
  | send : String → Value → Event
  deriving DecidableEq

/-- Modelled from the spec: the configuration service (`ZettlrConfig`,
whose source is outside this file) is "global mutable config access
(`get`/`set` on a shared config object)", a key-value store.  `get`
returns the stored value for a key, `undefined` when absent. -/
def configGet (c : List (String × Value)) (k : String) : Value :=
  match c.find? (fun p => p.1 = k) with
  | some p => p.2
  | none => .undefined

/-- Modelled from the spec: `set` on the configuration service stores a
value under a key (read-modify-write store). -/
def configSet (c : List (String × Value)) (k : String) (v : Value) :
    List (String × Value) :=
  if c.any (fun p => p.1 = k) then
    c.map (fun p => if p.1 = k then (k, v) else p)
  else c ++ [(k, v)]

/-- Modelled from the spec: `get` on the configuration service when the
router passes the raw message content as the key (`config-get`); a string
key reads the store, anything else is not a stored key. -/
def configGetV (c : List (String × Value)) (k : Value) : Value :=
  match k with
  | .str s => configGet c s
  | _ => .undefined

/-- Modelled from the spec: `update` "applies the full incoming config
update", merging every field of the incoming object into the store. -/
def configUpdate (c : List (String × Value)) (v : Value) :
    List (String × Value) :=
  match v with
  | .obj fs => fs.foldl (fun acc p => configSet acc p.1 p.2) c
  | _ => c

/-- The state visible to the router through the injected controller
`this._app`: the configuration store, the current file and directory
(read through `getCurrentFile`/`getCurrentDir`), the environment-sourced
configuration, and the values produced by the collaborator objects the
router forwards to (`getPaths()` and the file objects found in it), kept
abstract as result functions since their code lives outside this file. -/
structure AppState where
  config : List (String × Value)
  env : List (String × Value)
  currentFile : Value
  currentDir : Value
  paths : Value
  supportedLangs : Value
  findFileWithContent : Value → Value
  searchFile : Value → Value → Value

/-- Result of running `handleEvent` (and, below, `dispatch`): the
controller state after the call, the trace of observable events in
execution order, and whether a `TypeError` escaped (with the partial
trace up to the throw). -/
structure RunResult where
  state : AppState
  trace : List Event
  threw : Bool

/-- The router's command table: every `case` label of the `switch` in
`handleEvent`, in source order. -/
def commandTable : List String :=
  ["get-paths", "file-get-quicklook", "file-get", "dir-select",
   "file-modified", "file-new", "dir-new", "file-save", "file-autosave",
   "file-revert", "dir-open", "file-delete", "dir-delete", "file-search",
   "toggle-theme", "toggle-snippets", "export", "dir-rename",
   "file-rename", "request-move", "get-preferences", "update-config",
   "config-get", "config-get-env", "typo-request-lang",
   "typo-request-aff", "typo-request-dic"]

/-- `handleEvent(cmd, cnt)`: the command switch.  `switch` compares with
strict equality, so each case fires exactly when `cmd` is that string
value.  Argument evaluation order inside each case is kept (receiver
before arguments), property reads on a `null`/`undefined` content throw
after the events already produced, and the `default` case logs the
unknown command. -/
def handleEvent (app : AppState) (cmd : Value) (cnt : Value) : RunResult :=
  if cmd = .str "get-paths" then
    ⟨app, [.appCall "getPaths" [], .send "paths" app.paths], false⟩
  else if cmd = .str "file-get-quicklook" then
    ⟨app, [.appCall "getPaths" [],
           .send "file-quicklook" (app.findFileWithContent cnt)], false⟩
  else if cmd = .str "file-get" then
    ⟨app, [.appCall "sendFile" [cnt]], false⟩
  else if cmd = .str "dir-select" then
    ⟨app, [.appCall "selectDir" [cnt]], false⟩
  else if cmd = .str "file-modified" then
    ⟨app, [.appCall "setModified" []], false⟩
  else if cmd = .str "file-new" then
    ⟨app, [.appCall "newFile" [cnt]], false⟩
  else if cmd = .str "dir-new" then
    ⟨app, [.appCall "newDir" [cnt]], false⟩
  else if cmd = .str "file-save" then
    ⟨app, [.appCall "saveFile" [cnt]], false⟩
  else if cmd = .str "file-autosave" then
    ⟨app, [.appCall "autoSave" [cnt]], false⟩
  else if cmd = .str "file-revert" then
    ⟨app, [.appCall "revert" []], false⟩
  else if cmd = .str "dir-open" then
    ⟨app, [.appCall "openDir" []], false⟩
  else if cmd = .str "file-delete" then
    if cnt = .null ∨ cnt = .undefined then
      ⟨app, [], true⟩
    else if hasOwn cnt "hash" then
      ⟨app, [.appCall "removeFile" [getProp cnt "hash"]], false⟩
    else if ¬ jsEq app.currentFile .null then
      ⟨app, [.appCall "getCurrentFile" [], .appCall "removeFile" []], false⟩
    else
      ⟨app, [.appCall "getCurrentFile" []], false⟩
  else if cmd = .str "dir-delete" then
    if cnt = .null ∨ cnt = .undefined then
      ⟨app, [], true⟩
    else if hasOwn cnt "hash" then
      ⟨app, [.appCall "removeDir" [getProp cnt "hash"]], false⟩
    else if ¬ jsEq app.currentDir .null then
      ⟨app, [.appCall "getCurrentDir" [], .appCall "removeDir" []], false⟩
    else
      ⟨app, [.appCall "getCurrentDir" []], false⟩
  else if cmd = .str "file-search" then
    if cnt = .null ∨ cnt = .undefined then
      ⟨app, [.appCall "getPaths" []], true⟩
    else
      ⟨app, [.appCall "getPaths" [],
             .send "file-search-result"
               (.obj [("hash", getProp cnt "hash"),
                      ("result",
                       app.searchFile (getProp cnt "hash")
                         (getProp cnt "terms"))])], false⟩
  else if cmd = .str "toggle-theme" then
    ⟨{ app with
        config := configSet app.config "darkTheme"
          (.bool (! truthy (configGet app.config "darkTheme"))) },
     [.appCall "getConfig" [], .appCall "getConfig" [],
      .configSet "darkTheme"
        (.bool (! truthy (configGet app.config "darkTheme")))], false⟩
  else if cmd = .str "toggle-snippets" then
    ⟨{ app with
        config := configSet app.config "snippets"
          (.bool (! truthy (configGet app.config "snippets"))) },
     [.appCall "getConfig" [], .appCall "getConfig" [],
      .configSet "snippets"
        (.bool (! truthy (configGet app.config "snippets")))], false⟩
  else if cmd = .str "export" then
    ⟨app, [.appCall "exportFile" [cnt]], false⟩
  else if cmd = .str "dir-rename" then
    ⟨app, [.appCall "renameDir" [cnt]], false⟩
  else if cmd = .str "file-rename" then
    ⟨app, [.appCall "renameFile" [cnt]], false⟩
  else if cmd = .str "request-move" then
    ⟨app, [.appCall "requestMove" [cnt]], false⟩
  else if cmd = .str "get-preferences" then
    ⟨app, [.appCall "getConfig" [], .appCall "getConfig" [],
           .send "preferences"
             (setProp (.obj app.config) "supportedLangs"
               app.supportedLangs)], false⟩
  else if cmd = .str "update-config" then
    if cnt = .null ∨ cnt = .undefined then
      ⟨app, [], true⟩
    else
      ⟨{ app with config := configUpdate app.config cnt },
       ([.appCall "getConfig" []] ++
        (if ¬ jsEq (getProp cnt "darkTheme")
              (configGet app.config "darkTheme") then
           [.send "toggle-theme" (.str "no-emit")]
         else []) ++
        [.appCall "getConfig" []] ++
        (if ¬ jsEq (getProp cnt "snippets")
              (configGet app.config "snippets") then
           [.send "toggle-snippets" (.str "no-emit")]
         else []) ++
        [.appCall "getConfig" [], .configUpdate cnt]), false⟩
  else if cmd = .str "config-get" then
    ⟨app, [.appCall "getConfig" [],
           .send "config"
             (.obj [("key", cnt), ("value", configGetV app.config cnt)])],
     false⟩
  else if cmd = .str "config-get-env" then
    ⟨app, [.appCall "getConfig" [],
           .send "config"
             (.obj [("key", cnt), ("value", configGetV app.env cnt)])],
     false⟩
  else if cmd = .str "typo-request-lang" then
    ⟨app, [.appCall "getConfig" [],
           .send "typo-lang" (configGet app.config "spellcheck")], false⟩
  else if cmd = .str "typo-request-aff" then
    ⟨app, [.appCall "retrieveDictFile" [.str "aff", cnt]], false⟩
  else if cmd = .str "typo-request-dic" then
    ⟨app, [.appCall "retrieveDictFile" [.str "dic", cnt]], false⟩
  else
    ⟨app, [.logUnknown cmd], false⟩

/-- Result of `dispatch(arg)`: the payload value after the call (dispatch
may mutate its argument), the controller state, the event trace, and the
throw flag. -/
structure DispatchResult where
  payload : Value
  state : AppState
  trace : List Event
  threw : Bool

/-- `dispatch(arg)`: the entry point for every inbound message.  Calling
`arg.hasOwnProperty` on `null`/`undefined` throws a `TypeError`; a payload
without `command` is logged (`trans('system.no_command')` plus the
payload) and dropped; a payload without `content` has `arg.content = {}`
assigned into it before `handleEvent(arg.command, arg.content)` runs. -/
def dispatch (app : AppState) (arg : Value) : DispatchResult :=
  if arg = .null ∨ arg = .undefined then
    ⟨arg, app, [], true⟩
  else if ¬ hasOwn arg "command" then
    ⟨arg, app, [.logError "system.no_command" arg], false⟩
  else
    let arg2 := if hasOwn arg "content" then arg
                else setProp arg "content" (.obj [])
    let r := handleEvent app (getProp arg2 "command") (getProp arg2 "content")
    ⟨arg2, r.state, r.trace, r.threw⟩

/-- The content value `handleEvent` receives for a payload carrying
`command`: the payload's `content` field, or the empty object `{}`
substituted by `dispatch` when that field is absent (lines 54-56 of the
source). -/
def contentOf (p : Value) : Value :=
  if hasOwn p "content" then getProp p "content" else .obj []

/-- Is this event an outbound `send` to the renderer? -/
def isSend : Event → Bool
  | .send _ _ => true
  | _ => false

/-- Is this event a method call on the injected controller `this._app`? -/
def isAppCall : Event → Bool
  | .appCall _ _ => true
  | _ => false

/-- The read-only accessor methods of the controller: they report state
(`getPaths`, `getConfig`, `getCurrentFile`, `getCurrentDir`) rather than
carry out a command. -/
def isAccessorName (m : String) : Bool :=
  m = "getPaths" || m = "getConfig" || m = "getCurrentFile" ||
    m = "getCurrentDir"

/-- Is this event a command-forwarding (non-accessor) call on the
controller? -/
def isForwardCall : Event → Bool
  | .appCall m _ => ! isAccessorName m
  | _ => false

/-- Is this event an outbound `send` or the application of the full
configuration update (`getConfig().update(...)`)?  Used to state in which
order the `update-config` handler emits its toggle replies and applies
the update. -/
def isSendOrUpdate : Event → Bool
  | .send _ _ => true
  | .configUpdate _ => true
  | _ => false

/-- A concrete controller state used to instantiate the theorems below:
dark theme off, snippets on, a current file present. -/
def sampleApp : AppState :=
  ⟨[("darkTheme", .bool false), ("snippets", .bool true),
    ("spellcheck", .obj [])],
   [("platform", .str "linux")],
   .obj [("hash", .num 1)], .null, .obj [], .obj [],
   fun _ => .null, fun _ _ => .null⟩

/-! ## Helper lemmas -/

theorem hasOwn_command_obj (v : Value) (h : hasOwn v "command" = true) :
    ∃ fs, v = .obj fs := by
  cases v with
  | obj fs => exact ⟨fs, rfl⟩
  | str s => simp [hasOwn] at h
  | undefined => simp [hasOwn] at h
  | null => simp [hasOwn] at h
  | bool b => simp [hasOwn] at h
  | num n => simp [hasOwn] at h

theorem hasOwn_ne_null {v : Value} {k : String} (h : hasOwn v k = true) :
    ¬(v = .null ∨ v = .undefined) := by
  rintro (rfl | rfl) <;> simp [hasOwn] at h

theorem getProp_ne_undef_hasOwn {v : Value} {k : String}
    (h : getProp v k ≠ .undefined) : hasOwn v k = true := by
  cases v with
  | obj fs =>
    simp only [getProp] at h
    rcases hf : fs.find? (fun p => p.1 = k) with - | p
    · rw [hf] at h; exact absurd rfl h
    · have hm := List.mem_of_find?_eq_some hf
      have hp := List.find?_some hf
      simp only [decide_eq_true_eq] at hp
      simp only [hasOwn, List.any_eq_true]
      exact ⟨p, hm, by simp [hp]⟩
  | undefined => exact absurd rfl h
  | null => exact absurd rfl h
  | bool b => exact absurd rfl h
  | num n => exact absurd rfl h
  | str s => exact absurd rfl h

theorem find?_append_key (fs rest : List (String × Value)) (k : String)
    (h : fs.any (fun p => decide (p.1 = k)) = false) :
    (fs ++ rest).find? (fun p => decide (p.1 = k)) =
      rest.find? (fun p => decide (p.1 = k)) := by
  induction fs with
  | nil => rfl
  | cons hd t ih =>
    simp only [List.any_cons, Bool.or_eq_false_iff] at h
    rw [List.cons_append, List.find?_cons_of_neg _ (by simp [h.1]), ih h.2]

theorem getProp_setProp_new_same (fs : List (String × Value)) (k : String)
    (v : Value) (h : fs.any (fun p => decide (p.1 = k)) = false) :
    getProp (setProp (.obj fs) k v) k = v := by
  simp only [setProp, h, Bool.false_eq_true, if_false, getProp]
  rw [find?_append_key _ _ _ h, List.find?_cons_of_pos _ (by simp)]

theorem getProp_setProp_new_other (fs : List (String × Value))
    (k k' : String) (v : Value)
    (h : fs.any (fun p => decide (p.1 = k)) = false) (hk : k ≠ k') :
    getProp (setProp (.obj fs) k v) k' = getProp (.obj fs) k' := by
  simp only [setProp, h, Bool.false_eq_true, if_false, getProp]
  induction fs with
  | nil => rw [List.nil_append, List.find?_cons_of_neg _ (by simp [hk])]
  | cons hd t ih =>
    simp only [List.any_cons, Bool.or_eq_false_iff] at h
    by_cases hd1 : hd.1 = k'
    · rw [List.cons_append, List.find?_cons_of_pos _ (by simp [hd1]),
        List.find?_cons_of_pos _ (by simp [hd1])]
    · rw [List.cons_append, List.find?_cons_of_neg _ (by simp [hd1]),
        List.find?_cons_of_neg _ (by simp [hd1])]
      exact ih h.2

theorem configGet_configSet_same (c : List (String × Value)) (k : String)
    (v : Value) : configGet (configSet c k v) k = v := by
  unfold configSet
  split
  · rename_i h
    induction c with
    | nil => simp at h
    | cons hd t ih =>
      simp only [List.any_cons, Bool.or_eq_true] at h
      by_cases hd1 : hd.1 = k
      · simp only [List.map_cons, configGet, hd1, if_true]
        rw [List.find?_cons_of_pos _ (by simp)]
      · simp only [List.map_cons, configGet, hd1, if_false]
        rw [List.find?_cons_of_neg _ (by simp [hd1])]
        have ht : t.any (fun p => decide (p.1 = k)) = true := by
          rcases h with h | h
          · exact absurd (of_decide_eq_true h) hd1
          · exact h
        simpa only [configGet] using ih ht
  · rename_i h
    push_neg at h
    have h2 : c.any (fun p => decide (p.1 = k)) = false :=
      Bool.eq_false_iff.mpr h
    simp only [configGet]
    rw [find?_append_key _ _ _ h2, List.find?_cons_of_pos _ (by simp)]

theorem handleEvent_unknown (app : AppState) (cmd cnt : Value)
    (h : cmd ∉ commandTable.map Value.str) :
    handleEvent app cmd cnt = ⟨app, [.logUnknown cmd], false⟩ := by
  simp only [commandTable, List.map_cons, List.map_nil, List.mem_cons,
    List.not_mem_nil, or_false, not_or] at h
  obtain ⟨h1, h2, h3, h4, h5, h6, h7, h8, h9, h10, h11, h12, h13, h14,
    h15, h16, h17, h18, h19, h20, h21, h22, h23, h24, h25, h26, h27⟩ := h
  unfold handleEvent
  rw [if_neg h1, if_neg h2, if_neg h3, if_neg h4, if_neg h5, if_neg h6,
    if_neg h7, if_neg h8, if_neg h9, if_neg h10, if_neg h11, if_neg h12,
    if_neg h13, if_neg h14, if_neg h15, if_neg h16, if_neg h17, if_neg h18,
    if_neg h19, if_neg h20, if_neg h21, if_neg h22, if_neg h23, if_neg h24,
    if_neg h25, if_neg h26, if_neg h27]

theorem dispatch_hasCommand (app : AppState) (p : Value)
    (h : hasOwn p "command" = true) :
    dispatch app p =
      ⟨if hasOwn p "content" then p else setProp p "content" (.obj []),
       (handleEvent app (getProp p "command") (contentOf p)).state,
       (handleEvent app (getProp p "command") (contentOf p)).trace,
       (handleEvent app (getProp p "command") (contentOf p)).threw⟩ := by
  obtain ⟨fs, rfl⟩ := hasOwn_command_obj p h
  unfold dispatch
  rw [if_neg (hasOwn_ne_null h), if_neg (not_not_intro h)]
  by_cases hc : hasOwn (Value.obj fs) "content" = true
  · rw [if_pos hc]
    simp only [contentOf, hc, if_true]
  · rw [if_neg hc]
    have hany : fs.any (fun q => decide (q.1 = "content")) = false :=
      Bool.eq_false_iff.mpr hc
    simp only [contentOf, hc, Bool.false_eq_true, if_false,
      getProp_setProp_new_other fs "content" "command" (Value.obj []) hany
        (by decide),
      getProp_setProp_new_same fs "content" (Value.obj []) hany]

/-- The `file-delete` case of the switch, spelled out (lines 147-153 of
the source): a content carrying `hash` removes that file; otherwise
`getCurrentFile()` is consulted and, when it is not `null` (nor
`undefined`, by loose equality), the argumentless `removeFile()` runs. -/
theorem handleEvent_fileDelete (app : AppState) (cnt : Value) :
    handleEvent app (.str "file-delete") cnt =
      if cnt = .null ∨ cnt = .undefined then ⟨app, [], true⟩
      else if hasOwn cnt "hash" then
        ⟨app, [.appCall "removeFile" [getProp cnt "hash"]], false⟩
      else if ¬ jsEq app.currentFile .null then
        ⟨app, [.appCall "getCurrentFile" [], .appCall "removeFile" []],
         false⟩
      else ⟨app, [.appCall "getCurrentFile" []], false⟩ := rfl

/-- The `dir-delete` case of the switch, spelled out (lines 155-161). -/
theorem handleEvent_dirDelete (app : AppState) (cnt : Value) :
    handleEvent app (.str "dir-delete") cnt =
      if cnt = .null ∨ cnt = .undefined then ⟨app, [], true⟩
      else if hasOwn cnt "hash" then
        ⟨app, [.appCall "removeDir" [getProp cnt "hash"]], false⟩
      else if ¬ jsEq app.currentDir .null then
        ⟨app, [.appCall "getCurrentDir" [], .appCall "removeDir" []],
         false⟩
      else ⟨app, [.appCall "getCurrentDir" []], false⟩ := rfl

/-- The `file-search` case of the switch, spelled out (lines 163-171). -/
theorem handleEvent_fileSearch (app : AppState) (cnt : Value) :
    handleEvent app (.str "file-search") cnt =
      if cnt = .null ∨ cnt = .undefined then
        ⟨app, [.appCall "getPaths" []], true⟩
      else
        ⟨app, [.appCall "getPaths" [],
               .send "file-search-result"
                 (.obj [("hash", getProp cnt "hash"),
                        ("result",
                         app.searchFile (getProp cnt "hash")
                           (getProp cnt "terms"))])], false⟩ := rfl

/-- The `toggle-theme` case of the switch, spelled out (lines 174-176):
a read-modify-write of the `darkTheme` configuration entry through two
`getConfig()` calls; the content argument is not consulted. -/
theorem handleEvent_toggleTheme (app : AppState) (cnt : Value) :
    handleEvent app (.str "toggle-theme") cnt =
      ⟨{ app with
          config := configSet app.config "darkTheme"
            (.bool (! truthy (configGet app.config "darkTheme"))) },
       [.appCall "getConfig" [], .appCall "getConfig" [],
        .configSet "darkTheme"
          (.bool (! truthy (configGet app.config "darkTheme")))],
       false⟩ := rfl

/-- The `update-config` case of the switch, spelled out (lines 210-219):
each of `darkTheme` and `snippets` is compared (loose `!=`) against the
current configuration, a `no-emit`-tagged toggle reply is sent for each
difference, and only then is the full update applied. -/
theorem handleEvent_updateConfig (app : AppState) (cnt : Value) :
    handleEvent app (.str "update-config") cnt =
      if cnt = .null ∨ cnt = .undefined then ⟨app, [], true⟩
      else
        ⟨{ app with config := configUpdate app.config cnt },
         ([.appCall "getConfig" []] ++
          (if ¬ jsEq (getProp cnt "darkTheme")
                (configGet app.config "darkTheme") then
             [.send "toggle-theme" (.str "no-emit")]
           else []) ++
          [.appCall "getConfig" []] ++
          (if ¬ jsEq (getProp cnt "snippets")
                (configGet app.config "snippets") then
             [.send "toggle-snippets" (.str "no-emit")]
           else []) ++
          [.appCall "getConfig" [], .configUpdate cnt]), false⟩ := rfl

set_option maxHeartbeats 1000000 in
/-- Every run of the switch issues at most one command-forwarding
(non-accessor) call on the controller; the extra calls beyond that are
reads through `getPaths`, `getConfig`, `getCurrentFile` or
`getCurrentDir`. -/
theorem handleEvent_forward_le_one (app : AppState) (cmd cnt : Value) :
    ((handleEvent app cmd cnt).trace.countP isForwardCall) ≤ 1 := by
  by_cases h : cmd ∈ commandTable.map Value.str
  · simp only [commandTable, List.map_cons, List.map_nil, List.mem_cons,
      List.not_mem_nil, or_false] at h
    rcases h with rfl | rfl | rfl | rfl | rfl | rfl | rfl | rfl | rfl |
      rfl | rfl | rfl | rfl | rfl | rfl | rfl | rfl | rfl | rfl | rfl |
      rfl | rfl | rfl | rfl | rfl | rfl | rfl
    · exact Nat.zero_le 1
    · exact Nat.zero_le 1
    · exact Nat.le_refl 1
    · exact Nat.le_refl 1
    · exact Nat.le_refl 1
    · exact Nat.le_refl 1
    · exact Nat.le_refl 1
    · exact Nat.le_refl 1
    · exact Nat.le_refl 1
    · exact Nat.le_refl 1
    · exact Nat.le_refl 1
    · rw [handleEvent_fileDelete]
      split_ifs <;> first | exact Nat.zero_le 1 | exact Nat.le_refl 1
    · rw [handleEvent_dirDelete]
      split_ifs <;> first | exact Nat.zero_le 1 | exact Nat.le_refl 1
    · rw [handleEvent_fileSearch]
      split_ifs <;> exact Nat.zero_le 1
    · exact Nat.zero_le 1
    · exact Nat.zero_le 1
    · exact Nat.le_refl 1
    · exact Nat.le_refl 1
    · exact Nat.le_refl 1
    · exact Nat.le_refl 1
    · exact Nat.zero_le 1
    · rw [handleEvent_updateConfig]
      split_ifs <;> exact Nat.zero_le 1
    · exact Nat.zero_le 1
    · exact Nat.zero_le 1
    · exact Nat.zero_le 1
    · exact Nat.le_refl 1
    · exact Nat.le_refl 1
  · rw [handleEvent_unknown app cmd cnt h]
    exact Nat.zero_le 1

/-! ## Claims -/

/-- C1: for every payload (any transport value on which property lookup
is defined, i.e. other than `null`/`undefined`) that lacks a `command`
property, `dispatch` logs a diagnostic (`system.no_command` with the
payload) and returns: the payload is untouched, the controller state is
untouched, no controller method is called, no outbound message is sent,
and no error is propagated to the caller. -/
theorem dispatch_missing_command (app : AppState) (arg : Value)
    (h0 : arg ≠ .null) (h1 : arg ≠ .undefined)
    (h : hasOwn arg "command" = false) :
    dispatch app arg =
      ⟨arg, app, [.logError "system.no_command" arg], false⟩ := by
  unfold dispatch
  rw [if_neg (by simp [h0, h1]), if_pos (by simp [h])]

/-- Witness for C1 at the payload `{foo: 1}`. -/
theorem dispatch_missing_command_witness :
    (Value.obj [("foo", Value.num 1)] ≠ Value.null) ∧
    (Value.obj [("foo", Value.num 1)] ≠ Value.undefined) ∧
    hasOwn (Value.obj [("foo", Value.num 1)]) "command" = false ∧
    dispatch sampleApp (Value.obj [("foo", Value.num 1)]) =
      ⟨Value.obj [("foo", Value.num 1)], sampleApp,
       [.logError "system.no_command" (Value.obj [("foo", Value.num 1)])],
       false⟩ :=
  ⟨by decide, by decide, by decide,
   dispatch_missing_command sampleApp _ (by decide) (by decide) (by decide)⟩

/-- C2: for every command string not in the router's command table,
`handleEvent` logs a warning naming the unknown command and has no other
effect: the state is unchanged, no controller method is invoked and no
outbound message is sent. -/
theorem handleEvent_unrecognized (app : AppState) (s : String) (cnt : Value)
    (h : s ∉ commandTable) :
    handleEvent app (.str s) cnt = ⟨app, [.logUnknown (.str s)], false⟩ :=
  handleEvent_unknown app _ cnt (by
    rw [List.mem_map]
    rintro ⟨t, ht, heq⟩
    injection heq with h2
    subst h2
    exact h ht)

/-- Witness for C2 at the command string "bogus". -/
theorem handleEvent_unrecognized_witness :
    ("bogus" ∉ commandTable) ∧
    handleEvent sampleApp (.str "bogus") (.obj []) =
      ⟨sampleApp, [.logUnknown (.str "bogus")], false⟩ :=
  ⟨by decide, handleEvent_unrecognized sampleApp "bogus" (.obj []) (by decide)⟩

/-- C3: for every payload that has a `command` property but no `content`
property, `dispatch` invokes `handleEvent` with the empty mapping `{}` as
the content argument: its state, trace and throw flag are exactly those of
`handleEvent` run on the payload's command and `{}`. -/
theorem dispatch_defaults_content (app : AppState) (p : Value)
    (h1 : hasOwn p "command" = true) (h2 : hasOwn p "content" = false) :
    (dispatch app p).state =
        (handleEvent app (getProp p "command") (.obj [])).state ∧
      (dispatch app p).trace =
        (handleEvent app (getProp p "command") (.obj [])).trace ∧
      (dispatch app p).threw =
        (handleEvent app (getProp p "command") (.obj [])).threw := by
  rw [dispatch_hasCommand app p h1]
  have hc : contentOf p = .obj [] := by
    simp [contentOf, h2]
  rw [hc]
  exact ⟨rfl, rfl, rfl⟩

/-- Witness for C3 at the payload `{command: "file-revert"}`. -/
theorem dispatch_defaults_content_witness :
    hasOwn (Value.obj [("command", Value.str "file-revert")]) "command" =
        true ∧
    hasOwn (Value.obj [("command", Value.str "file-revert")]) "content" =
        false ∧
    ((dispatch sampleApp
          (Value.obj [("command", Value.str "file-revert")])).state =
        (handleEvent sampleApp
          (getProp (Value.obj [("command", Value.str "file-revert")])
            "command") (.obj [])).state ∧
      (dispatch sampleApp
          (Value.obj [("command", Value.str "file-revert")])).trace =
        (handleEvent sampleApp
          (getProp (Value.obj [("command", Value.str "file-revert")])
            "command") (.obj [])).trace ∧
      (dispatch sampleApp
          (Value.obj [("command", Value.str "file-revert")])).threw =
        (handleEvent sampleApp
          (getProp (Value.obj [("command", Value.str "file-revert")])
            "command") (.obj [])).threw) :=
  ⟨by decide, by decide,
   dispatch_defaults_content sampleApp _ (by decide) (by decide)⟩

/-- C4: for every `file-delete` dispatch whose (defaulted) content is a
value property lookup is defined on: if the content has a `hash`
property, the controller's delete-by-hash (`removeFile(hash)`) is the one
call made; otherwise, if the controller reports a current file that is
not `null` (nor `undefined`), the argumentless `removeFile()` follows the
`getCurrentFile()` read; otherwise only the `getCurrentFile()` read
happens and no mutator is called.  In no case is a reply message sent,
the state is unchanged, and nothing is thrown. -/
theorem dispatch_fileDelete (app : AppState) (p : Value)
    (h1 : hasOwn p "command" = true)
    (h2 : getProp p "command" = .str "file-delete")
    (hn : contentOf p ≠ .null) (hu : contentOf p ≠ .undefined) :
    ((hasOwn (contentOf p) "hash" = true →
        (dispatch app p).trace =
          [.appCall "removeFile" [getProp (contentOf p) "hash"]]) ∧
      (hasOwn (contentOf p) "hash" = false →
        jsEq app.currentFile .null = false →
        (dispatch app p).trace =
          [.appCall "getCurrentFile" [], .appCall "removeFile" []]) ∧
      (hasOwn (contentOf p) "hash" = false →
        jsEq app.currentFile .null = true →
        (dispatch app p).trace = [.appCall "getCurrentFile" []]) ∧
      (dispatch app p).trace.countP isSend = 0 ∧
      (dispatch app p).state = app ∧
      (dispatch app p).threw = false) := by
  rw [dispatch_hasCommand app p h1, h2, handleEvent_fileDelete,
    if_neg (show ¬(contentOf p = .null ∨ contentOf p = .undefined) from
      by simp [hn, hu])]
  by_cases hh : hasOwn (contentOf p) "hash" = true
  · rw [if_pos hh]
    exact ⟨fun _ => rfl, fun hf => absurd hh (by simp [hf]),
      fun hf _ => absurd hh (by simp [hf]), rfl, rfl, rfl⟩
  · rw [if_neg hh]
    by_cases hcf : jsEq app.currentFile .null = true
    · rw [if_neg (not_not_intro hcf)]
      exact ⟨fun ht => absurd ht hh, fun _ hf => absurd hcf (by simp [hf]),
        fun _ _ => rfl, rfl, rfl, rfl⟩
    · rw [if_pos hcf]
      exact ⟨fun ht => absurd ht hh, fun _ _ => rfl,
        fun _ hf => absurd hf hcf, rfl, rfl, rfl⟩

/-- Witness for C4 at `{command: "file-delete", content: {hash: 42}}`. -/
theorem dispatch_fileDelete_witness :
    hasOwn (Value.obj [("command", Value.str "file-delete"),
        ("content", Value.obj [("hash", Value.num 42)])]) "command" =
      true ∧
    getProp (Value.obj [("command", Value.str "file-delete"),
        ("content", Value.obj [("hash", Value.num 42)])]) "command" =
      Value.str "file-delete" ∧
    contentOf (Value.obj [("command", Value.str "file-delete"),
        ("content", Value.obj [("hash", Value.num 42)])]) ≠ Value.null ∧
    hasOwn (contentOf (Value.obj [("command", Value.str "file-delete"),
        ("content", Value.obj [("hash", Value.num 42)])])) "hash" = true ∧
    (dispatch sampleApp (Value.obj [("command", Value.str "file-delete"),
        ("content", Value.obj [("hash", Value.num 42)])])).trace =
      [.appCall "removeFile"
        [getProp (contentOf (Value.obj
          [("command", Value.str "file-delete"),
           ("content", Value.obj [("hash", Value.num 42)])])) "hash"]] :=
  ⟨by decide, by decide, by decide, by decide,
   (dispatch_fileDelete sampleApp _ (by decide) (by decide) (by decide)
      (by decide)).1 (by decide)⟩

/-- C5: for every `update-config` dispatch whose content carries boolean
`darkTheme` and `snippets` fields and whose current configuration stores
booleans for both settings, the replies sent and the configuration update
applied are, in execution order: a `toggle-theme` reply carrying the
`no-emit` sentinel exactly when the incoming `darkTheme` differs from the
current one, then a `toggle-snippets` reply carrying the sentinel exactly
when the incoming `snippets` differs, and the full configuration update
last; the resulting state has the update applied and nothing is
thrown. -/
theorem dispatch_updateConfig (app : AppState) (p : Value)
    (d s cd cs : Bool)
    (h1 : hasOwn p "command" = true)
    (h2 : getProp p "command" = .str "update-config")
    (hd : getProp (contentOf p) "darkTheme" = .bool d)
    (hs : getProp (contentOf p) "snippets" = .bool s)
    (hcd : configGet app.config "darkTheme" = .bool cd)
    (hcs : configGet app.config "snippets" = .bool cs) :
    ((dispatch app p).trace.filter isSendOrUpdate =
        (if d ≠ cd then [.send "toggle-theme" (.str "no-emit")] else []) ++
          (if s ≠ cs then [.send "toggle-snippets" (.str "no-emit")]
           else []) ++
          [.configUpdate (contentOf p)]) ∧
      (dispatch app p).state.config =
        configUpdate app.config (contentOf p) ∧
      (dispatch app p).threw = false := by
  have hn : contentOf p ≠ .null := by
    intro hh; rw [hh] at hd; exact Value.noConfusion hd
  have hu : contentOf p ≠ .undefined := by
    intro hh; rw [hh] at hd; exact Value.noConfusion hd
  rw [dispatch_hasCommand app p h1, h2, handleEvent_updateConfig,
    if_neg (show ¬(contentOf p = .null ∨ contentOf p = .undefined) from
      by simp [hn, hu])]
  rw [hd, hs, hcd, hcs]
  have jb : ∀ a b : Bool, jsEq (.bool a) (.bool b) = (a == b) :=
    fun a b => rfl
  rw [jb, jb]
  refine ⟨?_, rfl, rfl⟩
  by_cases hdc : d = cd <;> by_cases hsc : s = cs <;>
    simp [hdc, hsc, isSendOrUpdate, List.filter_cons, List.filter_append]

/-- Witness for C5: dark theme currently off, incoming `darkTheme: true`
and `snippets: true` with snippets currently on — exactly one
`toggle-theme` reply, before the update. -/
theorem dispatch_updateConfig_witness :
    getProp (contentOf (Value.obj [("command", Value.str "update-config"),
        ("content", Value.obj [("darkTheme", Value.bool true),
          ("snippets", Value.bool true)])])) "darkTheme" =
      Value.bool true ∧
    configGet sampleApp.config "darkTheme" = Value.bool false ∧
    (dispatch sampleApp (Value.obj [("command", Value.str "update-config"),
        ("content", Value.obj [("darkTheme", Value.bool true),
          ("snippets", Value.bool true)])])).trace.filter isSendOrUpdate =
      (if (true : Bool) ≠ (false : Bool) then
        [.send "toggle-theme" (.str "no-emit")] else []) ++
        (if (true : Bool) ≠ (true : Bool) then
          [.send "toggle-snippets" (.str "no-emit")] else []) ++
        [.configUpdate (contentOf (Value.obj
          [("command", Value.str "update-config"),
           ("content", Value.obj [("darkTheme", Value.bool true),
             ("snippets", Value.bool true)])]))] :=
  ⟨by decide, by decide,
   (dispatch_updateConfig sampleApp _ true true false true (by decide)
      (by decide) (by decide) (by decide) (by decide) (by decide)).1⟩

/-- C6: dispatching the `toggle-theme` command twice in succession
returns the configuration's `darkTheme` setting to its original (boolean)
value — the toggle is an involution on the stored setting. -/
theorem dispatch_toggleTheme_involution (app : AppState) (p : Value)
    (b : Bool)
    (h1 : hasOwn p "command" = true)
    (h2 : getProp p "command" = .str "toggle-theme")
    (hb : configGet app.config "darkTheme" = .bool b) :
    configGet ((dispatch (dispatch app p).state p).state).config
      "darkTheme" = .bool b := by
  rw [dispatch_hasCommand app p h1, h2, handleEvent_toggleTheme]
  rw [dispatch_hasCommand _ p h1, h2, handleEvent_toggleTheme]
  simp only [configGet_configSet_same, hb, truthy, Bool.not_not]

/-- Witness for C6 at `{command: "toggle-theme"}` with dark theme
initially off. -/
theorem dispatch_toggleTheme_involution_witness :
    hasOwn (Value.obj [("command", Value.str "toggle-theme")]) "command" =
      true ∧
    configGet sampleApp.config "darkTheme" = Value.bool false ∧
    configGet ((dispatch
        (dispatch sampleApp
          (Value.obj [("command", Value.str "toggle-theme")])).state
        (Value.obj [("command", Value.str "toggle-theme")])).state).config
      "darkTheme" = Value.bool false :=
  ⟨by decide, by decide,
   dispatch_toggleTheme_involution sampleApp _ false (by decide) (by decide)
     (by decide)⟩

/-- C7 counterexample: the payload `{command: "file-revert"}` is mutated
by `dispatch` — it comes back with a `content` field added, so a message
is not immutable once dispatched. -/
theorem dispatch_mutates_payload_cex :
    (dispatch sampleApp
        (.obj [("command", Value.str "file-revert")])).payload ≠
      .obj [("command", Value.str "file-revert")] := by decide

/-- C7 amended: `dispatch` leaves the payload object unchanged except
when the payload has a `command` property but no `content` property, in
which case `dispatch` assigns an empty object into its `content` field
(line 55 of the source); no other field is added, removed or modified. -/
theorem dispatch_payload_change (app : AppState) (p : Value) :
    (dispatch app p).payload =
      if hasOwn p "command" = true ∧ hasOwn p "content" = false then
        setProp p "content" (.obj [])
      else p := by
  by_cases h1 : hasOwn p "command" = true
  · rw [dispatch_hasCommand app p h1]
    by_cases h2 : hasOwn p "content" = true
    · rw [if_pos h2,
        if_neg (fun hh => by rw [h2] at hh; exact absurd hh.2 (by simp))]
    · have h2f : hasOwn p "content" = false := Bool.eq_false_iff.mpr h2
      rw [if_neg h2, if_pos ⟨h1, h2f⟩]
  · unfold dispatch
    by_cases h0 : p = .null ∨ p = .undefined
    · rw [if_pos h0, if_neg (fun hh => h1 hh.1)]
    · rw [if_neg h0, if_pos h1, if_neg (fun hh => h1 hh.1)]

/-- C8 counterexample: the dispatch
`{command: "file-delete", content: {}}` against a state with a current
file issues two calls on the injected controller (`getCurrentFile()` and
`removeFile()`), so a single dispatch is not limited to one controller
call. -/
theorem dispatch_two_controller_calls_cex :
    ¬ (((dispatch sampleApp
          (.obj [("command", Value.str "file-delete"),
                 ("content", Value.obj [])])).trace.countP isAppCall) ≤
        1) := by decide

/-- C8 amended: for every inbound message, a single dispatch issues at
most one command-forwarding call to a method of the injected controller;
only read-only accessor calls (`getPaths`, `getConfig`, `getCurrentFile`,
`getCurrentDir`) can appear beyond it. -/
theorem dispatch_forward_le_one (app : AppState) (arg : Value) :
    ((dispatch app arg).trace.countP isForwardCall) ≤ 1 := by
  by_cases h1 : hasOwn arg "command" = true
  · rw [dispatch_hasCommand app arg h1]
    exact handleEvent_forward_le_one app _ _
  · unfold dispatch
    by_cases h0 : arg = .null ∨ arg = .undefined
    · rw [if_pos h0]; simp
    · rw [if_neg h0, if_pos h1]
      simp [isForwardCall]

/-- C9: `dispatch` tests only for the presence of the `command` property,
not its value or type — a payload whose `command` holds any non-command
value (`undefined`, `null`, a number, ...) is not dropped as malformed:
`handleEvent` is invoked with that value and falls through to the
unknown-command warning branch, with no controller call and no outbound
message. -/
theorem dispatch_nonstring_command (app : AppState) (v c : Value)
    (h : v ∉ commandTable.map Value.str) :
    dispatch app (.obj [("command", v), ("content", c)]) =
      ⟨.obj [("command", v), ("content", c)], app, [.logUnknown v],
       false⟩ := by
  have h1 : hasOwn (Value.obj [("command", v), ("content", c)])
      "command" = true := by simp [hasOwn]
  have h2 : hasOwn (Value.obj [("command", v), ("content", c)])
      "content" = true := by simp [hasOwn]
  have h3 : getProp (Value.obj [("command", v), ("content", c)])
      "command" = v := by simp [getProp]
  have h4 : contentOf (Value.obj [("command", v), ("content", c)]) = c := by
    simp [contentOf, h2, getProp]
  rw [dispatch_hasCommand _ _ h1, if_pos h2, h3, h4,
    handleEvent_unknown app v c h]

/-- Witness for C9 at `{command: undefined, content: {}}`. -/
theorem dispatch_nonstring_command_witness :
    (Value.undefined ∉ commandTable.map Value.str) ∧
    dispatch sampleApp
        (.obj [("command", Value.undefined), ("content", Value.obj [])]) =
      ⟨.obj [("command", Value.undefined), ("content", Value.obj [])],
       sampleApp, [.logUnknown Value.undefined], false⟩ :=
  ⟨by decide,
   dispatch_nonstring_command sampleApp Value.undefined (Value.obj [])
     (by decide)⟩

/-- C10: the `toggle-theme` and `toggle-snippets` handlers ignore the
content argument entirely — for any two content values (the `no-emit`
sentinel included) `handleEvent` produces the identical result (state
change, trace and throw flag) and sends no outbound message, so the
sentinel receives no special treatment at this layer. -/
theorem toggle_ignores_content (app : AppState) (c1 c2 : Value) :
    handleEvent app (.str "toggle-theme") c1 =
        handleEvent app (.str "toggle-theme") c2 ∧
      handleEvent app (.str "toggle-snippets") c1 =
        handleEvent app (.str "toggle-snippets") c2 ∧
      (handleEvent app (.str "toggle-theme") c1).trace.countP isSend = 0 ∧
      (handleEvent app (.str "toggle-snippets") c1).trace.countP isSend =
        0 :=
  ⟨rfl, rfl, rfl, rfl⟩

end ZettlrIPC
